import Mathlib

/-!
Verification development for the DynamicDock backend
(`backend/app/molecular.py`, `backend/app/docking.py`,
`backend/app/routes.py`).

The Python modules are shallowly embedded as Lean definitions:

* Biopython's model/chain/residue/atom hierarchy becomes plain Lean
  structures over `Rat` coordinates (`Rat` stands in for Python floats;
  no floating-point arithmetic is performed by the embedded code, only
  comparisons, means, and formatting).
* External-library calls whose outcome the Python code merely branches
  on (RDKit SMILES derivation, `obabel` subprocess runs, the Vina child
  process) are modelled as explicit data carried by the input: an
  `Option String` SMILES outcome per residue, an `ObabelRun` outcome per
  converter call, a `ProcOutcome` for the Vina process.
* Python string primitives used by the score parser (`in` substring
  test, `str.split()`, `int()`, `float()`) are modelled as attributes of
  each captured output line (`OutLine`): whether the separator substring
  occurs, and the whitespace-split token list with each token's
  integer/float parse outcome.  A line is blank (`not line.strip()`)
  exactly when its whitespace-split token list is empty.
* Filesystem effects are made explicit: functions that write files
  return the list of paths written, or thread an association-list
  filesystem `FS` mapping a path to its list of lines.
-/

namespace DynamicDock

/-- Python whitespace as recognized by `str.strip` (ASCII range). -/
def pyIsSpace (c : Char) : Bool :=
  c = ' ' || c = '\t' || c = '\n' || c = '\r' || c.toNat = 11 || c.toNat = 12

/-- Character-list core of `str.startswith`: the first argument is the
pattern, the second the text. -/
def pyStartsWithL : List Char → List Char → Bool
  | [], _ => true
  | _ :: _, [] => false
  | p :: ps, c :: cs => p = c && pyStartsWithL ps cs

/-- Python `s.startswith(pat)`. -/
def pyStartsWith (s pat : String) : Bool :=
  pyStartsWithL pat.data s.data

/-- Python `s.endswith(pat)`. -/
def pyEndsWith (s pat : String) : Bool :=
  pyStartsWithL pat.data.reverse s.data.reverse

/-- Python `s.strip()`: drop leading and trailing whitespace. -/
def pyStrip (s : String) : String :=
  String.mk (((s.data.dropWhile pyIsSpace).reverse.dropWhile pyIsSpace).reverse)

/-- Fuel-driven core of `str.replace`: replace every non-overlapping
occurrence of `pat` (non-empty) left to right.  The fuel is an upper
bound on the scanned characters, instantiated with the text's length. -/
def pyReplaceGo (pat rep : List Char) : Nat → List Char → List Char
  | _, [] => []
  | 0, s => s
  | fuel + 1, c :: cs =>
    if pyStartsWithL pat (c :: cs) then
      rep ++ pyReplaceGo pat rep fuel (List.drop (pat.length - 1) cs)
    else c :: pyReplaceGo pat rep fuel cs

/-- Python `s.replace(pat, rep)` for a non-empty pattern (every use in
this codebase has a non-empty literal pattern; the empty-pattern case
is returned unchanged). -/
def pyReplace (s pat rep : String) : String :=
  if pat.data = [] then s
  else String.mk (pyReplaceGo pat.data rep.data s.data.length s.data)

/-- A 3-D coordinate, as carried by a Biopython atom. -/
structure Vec3 where
  x : Rat
  y : Rat
  z : Rat
deriving DecidableEq, Repr

/-- A Biopython atom: a name and a coordinate (`atom.name`,
`atom.get_coord()`). -/
structure PyAtom where
  name : String
  coord : Vec3
deriving DecidableEq, Repr

/-- A Biopython residue.  `hetfield` is `residue.id[0]` (the hetero
flag field, e.g. `"H_LIG"`, `"W"`, or `" "`), `seqpos` is
`residue.id[1]`, `resname` is `residue.resname`.  `smilesResult` is the
outcome of `MolecularHandler._get_smiles` on this residue: that method
delegates to the external RDKit library (PDB round-trip, molecule
construction, sanitization) and returns either a SMILES string or
`None`, catching all exceptions internally, so its outcome is modelled
as data attached to the residue. -/
structure PyResidue where
  hetfield : String
  seqpos : Int
  resname : String
  atoms : List PyAtom
  smilesResult : Option String
deriving DecidableEq, Repr

/-- A Biopython chain: an id and its residues. -/
structure PyChain where
  id : String
  residues : List PyResidue
deriving DecidableEq, Repr

/-- A Biopython model: a list of chains. -/
abbrev PyModel := List PyChain

/-- A Biopython structure: a list of models. -/
abbrev PyStructure := List PyModel

/-- Python truthiness of an optional string: `None` and `""` are falsy
(`if not smiles: continue`). -/
def optStrTruthy : Option String → Bool
  | none => false
  | some s => s ≠ ""

/-- The non-hydrogen atoms of a residue: atoms whose name does not
start with `'H'` (`if not atom.name.startswith('H')`, used identically
at molecular.py lines 83 and 116). -/
def nonHAtoms (r : PyResidue) : List PyAtom :=
  r.atoms.filter (fun a => ¬ pyStartsWith a.name "H")

/-- Non-hydrogen atom count of a residue
(`len([atom for atom in residue if not atom.name.startswith('H')])`,
molecular.py line 83). -/
def atomCount (r : PyResidue) : Nat :=
  (nonHAtoms r).length

/-- Coordinate-wise mean of a list of coordinates (`np.mean(coords,
axis=0)`). -/
def meanVec3 (l : List Vec3) : Vec3 :=
  ⟨(l.map Vec3.x).sum / l.length, (l.map Vec3.y).sum / l.length,
   (l.map Vec3.z).sum / l.length⟩

/-- MolecularHandler._get_centroid: mean coordinate of the residue's
non-hydrogen atoms, `none` when there are no such atoms
(`if not coords: return None`). -/
def get_centroid (r : PyResidue) : Option Vec3 :=
  let coords := (nonHAtoms r).map PyAtom.coord
  if coords.isEmpty then none else some (meanVec3 coords)

/-- The fixed exclusion set of common non-ligand hetero molecules
(molecular.py line 64). -/
def excluded_residues : List String :=
  ["HOH", "WAT", "SOL", "CL", "NA", "MG", "CA", "ZN"]

/-- One ligand candidate record as built in
MolecularHandler._find_ligands (molecular.py lines 86-98).  The Python
dict gains the key "is_main_ligand" only for the head of the sorted
list; that key's presence is modelled as the Boolean field
`is_main_ligand`, `false` at creation. -/
structure LigandInfo where
  name : String
  chain : String
  position : Int
  coordinates : Vec3
  smiles : String
  atoms : Nat
  residue_hetfield : String
  residue_seqpos : Int
  is_main_ligand : Bool
deriving DecidableEq, Repr

/-- The candidate test and record construction for one residue of one
chain, following the body of the residue loop in
MolecularHandler._find_ligands (molecular.py lines 70-99): hetero flag
non-blank and residue name not excluded, then a centroid must exist,
then a truthy SMILES, then more than 3 non-hydrogen atoms.  Residues
failing any step yield `none` (the Python code `continue`s, and the
surrounding `except` clause likewise only skips the residue). -/
def candidateOfResidue (chainId : String) (r : PyResidue) : Option LigandInfo :=
  if pyStrip r.hetfield ≠ "" ∧ r.resname ∉ excluded_residues then
    match get_centroid r with
    | none => none
    | some c =>
      if optStrTruthy r.smilesResult then
        if atomCount r > 3 then
          some { name := r.resname, chain := chainId, position := r.seqpos,
                 coordinates := c, smiles := r.smilesResult.getD "",
                 atoms := atomCount r, residue_hetfield := r.hetfield,
                 residue_seqpos := r.seqpos, is_main_ligand := false }
        else none
      else none
  else none

/-- Candidate records collected in structure-traversal order (the
nested model/chain/residue loops of _find_ligands). -/
def rawLigands (s : PyStructure) : List LigandInfo :=
  (s.map (fun model =>
    (model.map (fun chain =>
      chain.residues.filterMap (candidateOfResidue chain.id))).flatten)).flatten

/-- Descending-by-atom-count comparison used to sort candidates
(`ligands.sort(key=lambda x: x["atoms"], reverse=True)`); Python's sort
is stable, as is `List.mergeSort`. -/
def ligandGE (a b : LigandInfo) : Bool :=
  b.atoms ≤ a.atoms

/-- MolecularHandler._find_ligands (molecular.py lines 61-110): collect
candidates, sort by atom count descending, and mark the first candidate
as the main ligand. -/
def find_ligands (s : PyStructure) : List LigandInfo :=
  let sorted := (rawLigands s).mergeSort ligandGE
  match sorted with
  | [] => []
  | h :: t => { h with is_main_ligand := true } :: t

/-- The active-site record built by
MolecularHandler._determine_active_site (molecular.py lines 153-168). -/
structure ActiveSite where
  x : Rat
  y : Rat
  z : Rat
  ligand_name : String
  ligand_smiles : String
deriving DecidableEq, Repr

/-- MolecularHandler._determine_active_site: the main (first, largest)
ligand's centroid, name and SMILES; `none` models the empty dict
returned for an empty candidate list. -/
def determine_active_site (ligands : List LigandInfo) : Option ActiveSite :=
  match ligands with
  | [] => none
  | m :: _ => some ⟨m.coordinates.x, m.coordinates.y, m.coordinates.z,
                    m.name, m.smiles⟩

/-- Clean-structure path produced by MolecularHandler._remove_ligands
(`original_path.replace('.pdb', '_clean.pdb')`, molecular.py line 204). -/
def remove_ligands_clean_path (original_path : String) : String :=
  pyReplace original_path ".pdb" "_clean.pdb"

/-- Result record of MolecularHandler.analyze_structure. -/
structure AnalysisResult where
  ligands : List LigandInfo
  active_site : Option ActiveSite
  clean_structure_path : String
deriving DecidableEq, Repr

/-- MolecularHandler.analyze_structure (molecular.py lines 40-59):
find ligands; compute the active site only if ligands were found;
create (write) the clean structure only if ligands were found,
otherwise return the original path.  The second component is the list
of files written during the call (_remove_ligands writes exactly the
clean-structure file). -/
def analyze_structure (s : PyStructure) (structure_path : String) :
    AnalysisResult × List String :=
  let ligands := find_ligands s
  let active_site := if ligands.isEmpty then none
                     else determine_active_site ligands
  let clean_structure_path := if ligands.isEmpty then structure_path
                              else remove_ligands_clean_path structure_path
  let written := if ligands.isEmpty then []
                 else [remove_ligands_clean_path structure_path]
  (⟨ligands, active_site, clean_structure_path⟩, written)

/-- Decimal rendering of a Python int (`f"{value}"` on an int). -/
def pyIntStr (n : Int) : String :=
  toString n

/-- Rendering of a Python float (`f"{value}"` on a float), with `Rat`
standing in for the float: whole-valued floats print as `"<int>.0"`,
matching CPython on every value the configuration builder receives from
the API layer; other rationals use the `Rat` rendering as a stand-in
for the shortest-round-trip float repr, which this model does not
reproduce digit-for-digit. -/
def pyFloatStr (q : Rat) : String :=
  if q.den = 1 then toString q.num ++ ".0" else toString q

/-- DockingHandler.prepare_docking_config (docking.py lines 18-49): the
eight key/value pairs of the Vina configuration, in the dict's
insertion order, each value rendered as Python would render it into
`f"{key} = {value}\n"`. -/
def prepare_docking_config (center_x center_y center_z size_x size_y size_z : Rat)
    (exhaustiveness num_modes : Int) : List (String × String) :=
  [("center_x", pyFloatStr center_x),
   ("center_y", pyFloatStr center_y),
   ("center_z", pyFloatStr center_z),
   ("size_x", pyFloatStr size_x),
   ("size_y", pyFloatStr size_y),
   ("size_z", pyFloatStr size_z),
   ("exhaustiveness", pyIntStr exhaustiveness),
   ("num_modes", pyIntStr num_modes)]

/-- The lines written to the configuration file: one `key = value` line
per pair (`f.write(f"{key} = {value}\n")`, docking.py line 47).  A file
is modelled as its list of lines. -/
def configLines (cfg : List (String × String)) : List String :=
  cfg.map (fun kv => kv.1 ++ " = " ++ kv.2)

/-- Modelled from the spec: split a character list at the first
occurrence of the three-character separator `" = "`.  The spec's
round-trip property needs a reader of the written `key=value` text; no
such reader exists in this repository (the file is consumed by the
external Vina binary), so the reader is modelled from the spec's words:
each line is split into a key and a value at its separator. -/
def splitAtSep : List Char → Option (List Char × List Char)
  | [] => none
  | c :: rest =>
    if c = ' ' then
      match rest with
      | '=' :: ' ' :: r2 => some ([], r2)
      | _ => (splitAtSep rest).map (fun p => (c :: p.1, p.2))
    else (splitAtSep rest).map (fun p => (c :: p.1, p.2))

/-- Modelled from the spec: parse one `key = value` line into its pair;
lines without the separator (in particular empty lines) yield nothing. -/
def parseConfigLine (s : String) : Option (String × String) :=
  (splitAtSep s.data).map (fun p => (String.mk p.1, String.mk p.2))

/-- Modelled from the spec: re-read a written configuration, line by
line. -/
def readConfigLines (lines : List String) : List (String × String) :=
  lines.filterMap parseConfigLine

/-- One whitespace-separated token of a Vina stdout line, carrying the
outcomes of Python `int()` and `float()` on it (the parses are
performed by the Python runtime; the model attaches their results to
the token, with `Rat` standing in for the parsed float). -/
structure Token where
  asInt : Option Int
  asFloat : Option Rat
deriving DecidableEq, Repr

/-- One line of captured Vina stdout, carrying the two attributes the
parsing loop inspects: whether the literal separator substring
`"-----+------------+----------+----------"` occurs in the line
(`in`), and the whitespace-split token list (`line.split()`).  A line
is blank after stripping (`not line.strip()`) exactly when its token
list is empty. -/
structure OutLine where
  hasSep : Bool
  tokens : List Token
deriving DecidableEq, Repr

/-- One parsed pose score record (docking.py lines 109-114). -/
structure Score where
  mode : Int
  affinity : Rat
  rmsd_lb : Rat
  rmsd_ub : Rat
deriving DecidableEq, Repr

/-- Parsing of one candidate score row (docking.py lines 107-114): at
least four whitespace-separated fields, the first parsing as an int and
the next three as floats; the record is appended only if all four
conversions succeed (a `ValueError` in any of them is caught and the
row skipped), and a row with fewer than four fields is skipped by the
`len(parts) >= 4` guard. -/
def parseScoreRow (ts : List Token) : Option Score :=
  match ts with
  | t0 :: t1 :: t2 :: t3 :: _ =>
    match t0.asInt, t1.asFloat, t2.asFloat, t3.asFloat with
    | some m, some a, some lb, some ub => some ⟨m, a, lb, ub⟩
    | _, _, _, _ => none
  | _ => none

/-- The score-collection loop of DockingHandler.run_docking (docking.py
lines 91-117), with `reading` the `reading_scores` flag: a line
containing the separator sets the flag and is skipped; once the flag is
set, a blank line stops the loop; otherwise, while the flag is set,
each non-blank line is parsed as a score row and kept when it parses. -/
def parseScoreLines (reading : Bool) : List OutLine → List Score
  | [] => []
  | l :: ls =>
    if l.hasSep then parseScoreLines true ls
    else if reading ∧ l.tokens.isEmpty then []
    else if reading then
      match parseScoreRow l.tokens with
      | some sc => sc :: parseScoreLines reading ls
      | none => parseScoreLines reading ls
    else parseScoreLines reading ls

/-- Outcome of spawning the Vina child process: either the spawn itself
raises (binary missing, permission denied — the `except` clause of
run_docking), or the process exits with a return code, captured stdout
lines, and captured stderr text. -/
inductive ProcOutcome where
  | spawnFailure (msg : String)
  | exited (returncode : Int) (stdoutLines : List OutLine) (stderr : String)
deriving DecidableEq, Repr

/-- The dict returned by DockingHandler.run_docking: on failure only an
error string (no scores key), on success the parsed scores and the
output path. -/
inductive DockRunResult where
  | failure (error : String)
  | success (scores : List Score) (output_path : String)
deriving DecidableEq, Repr

/-- DockingHandler.run_docking (docking.py lines 51-133): a spawn
failure returns the failure dict with the exception text; a non-zero
exit returns the failure dict with `"Vina error: "` followed by the
captured stderr; a zero exit parses the score table from stdout and
returns success, whatever the number of parsed rows. -/
def run_docking (outcome : ProcOutcome) (output_path : String) : DockRunResult :=
  match outcome with
  | .spawnFailure msg => .failure msg
  | .exited rc lines stderr =>
    if rc ≠ 0 then .failure ("Vina error: " ++ stderr)
    else .success (parseScoreLines false lines) output_path

/-- Python `min(scores, key=lambda x: x["affinity"])` over a non-empty
list (routes.py line 156): the first record of minimum affinity;
`none` for the empty list (the routes code guards with
`if result["scores"] else None`). -/
def pyMinByAffinity : List Score → Option Score
  | [] => none
  | h :: t => some (t.foldl (fun acc x => if x.affinity < acc.affinity then x else acc) h)

/-- The tail of routes.dock_ligand after the docking run (routes.py
lines 149-164): a failed run raises HTTP 500 with the run's error text
before any complex composition; a successful run selects the best
(minimum-affinity) score and then composes the complex.  The Boolean
records whether save_docked_complex is invoked. -/
def dock_ligand_post (result : DockRunResult) :
    Except String (Option Rat) × Bool :=
  match result with
  | .failure e => (.error ("Docking failed: " ++ e), false)
  | .success scores _ =>
    (.ok ((pyMinByAffinity scores).map Score.affinity), true)

/-- A filesystem modelled as an association list from a path to the
file's content, the content being its list of lines (each Python
`write` of a line-with-newline appends one entry; `write('\n')` appends
one empty entry). -/
abbrev FS := List (String × List String)

/-- Content of a file, `none` when the path does not exist. -/
def fsRead (fs : FS) (p : String) : Option (List String) :=
  (fs.find? (fun e => e.1 = p)).map Prod.snd

/-- Create or overwrite a file (also models `open(p, 'w')`, which
truncates on open). -/
def fsWrite (fs : FS) (p : String) (content : List String) : FS :=
  (p, content) :: fs.filter (fun e => e.1 ≠ p)

/-- Remove a file (`os.remove`). -/
def fsRemove (fs : FS) (p : String) : FS :=
  fs.filter (fun e => e.1 ≠ p)

/-- Outcome of one `obabel` subprocess run with `check=True`: the run
either raises `CalledProcessError` (non-zero exit), or succeeds,
possibly having written its output file (the code never verifies the
output file's existence here, so a zero exit with no file written is a
possible outcome). -/
inductive ObabelRun where
  | fail
  | ok (written : Option (List String))
deriving DecidableEq, Repr

/-- DockingHandler.save_docked_complex (docking.py lines 135-179),
threading the filesystem explicitly.  `receptorConv` and `ligandConv`
are the outcomes of the two possible `obabel` calls.  Steps, in source
order: convert the receptor to PDB when it is a `.pdbqt` file; convert
the docked ligand to PDB; open the output path for writing (truncating
it); copy every receptor line that does not start with `END`; write a
blank separator line and copy every ligand line; remove the temporary
converted files; return the output path.  Any failure raises
`RuntimeError("Failed to save docked complex: ...")`, leaving the
filesystem as it was at the point of failure. -/
def save_docked_complex (receptorConv ligandConv : ObabelRun) (fs0 : FS)
    (receptor_path docked_ligand_path output_path : String) :
    FS × Except String String :=
  let receptor_pdb := if pyEndsWith receptor_path ".pdbqt"
                      then pyReplace receptor_path ".pdbqt" ".pdb"
                      else receptor_path
  let step1 : FS × Except String Unit :=
    if pyEndsWith receptor_path ".pdbqt" then
      match receptorConv with
      | .fail => (fs0, .error "Failed to save docked complex: obabel returned non-zero exit status")
      | .ok w =>
        match w with
        | none => (fs0, .ok ())
        | some content => (fsWrite fs0 receptor_pdb content, .ok ())
    else (fs0, .ok ())
  match step1 with
  | (fs1, .error e) => (fs1, .error e)
  | (fs1, .ok _) =>
    let ligand_pdb := pyReplace docked_ligand_path ".pdbqt" "_ligand.pdb"
    let step2 : FS × Except String Unit :=
      match ligandConv with
      | .fail => (fs1, .error "Failed to save docked complex: obabel returned non-zero exit status")
      | .ok w =>
        match w with
        | none => (fs1, .ok ())
        | some content => (fsWrite fs1 ligand_pdb content, .ok ())
    match step2 with
    | (fs2, .error e) => (fs2, .error e)
    | (fs2, .ok _) =>
      let fs3 := fsWrite fs2 output_path []
      match fsRead fs3 receptor_pdb with
      | none => (fs3, .error ("Failed to save docked complex: No such file or directory: " ++ receptor_pdb))
      | some recLines =>
        let recOut := recLines.filter (fun l => ¬ pyStartsWith l "END")
        let fs4 := fsWrite fs3 output_path recOut
        match fsRead fs4 ligand_pdb with
        | none => (fs4, .error ("Failed to save docked complex: No such file or directory: " ++ ligand_pdb))
        | some ligLines =>
          let fs5 := fsWrite fs4 output_path (recOut ++ "" :: ligLines)
          let fs6 := if pyEndsWith receptor_path ".pdbqt" ∧ (fsRead fs5 receptor_pdb).isSome
                     then fsRemove fs5 receptor_pdb else fs5
          let fs7 := if (fsRead fs6 ligand_pdb).isSome
                     then fsRemove fs6 ligand_pdb else fs6
          (fs7, .ok output_path)

/-- Python `os.path.join(a, b)`: the second component wins when it is
absolute. -/
def pyJoin (a b : String) : String :=
  if pyStartsWith b "/" then b else a ++ "/" ++ b

/-- Outcome of routes.download_file: access denied (HTTP 403, raised
before any filesystem access to the target), not found (HTTP 404,
after an existence check), or the file served. -/
inductive DownloadOutcome where
  | denied
  | notFound
  | served (path : String)
deriving DecidableEq, Repr

/-- routes.download_file (routes.py lines 182-211), with `uploads`,
`results`, `base` the three configured directories and `fsExists` the
filesystem's existence predicate: resolve the requested path (paths
already starting with the uploads or results directory are taken as
is, others are joined onto the base directory); then the security
check accepts the path when it starts with the uploads directory, the
results directory, OR the base directory, and raises 403 otherwise;
only then is the filesystem consulted.  `os.path.abspath` is modelled
as the identity, which is exact on inputs whose resolved form is
already an absolute normalized path (as in every statement below). -/
def download_file (uploads results base : String) (fsExists : String → Bool)
    (file_path : String) : DownloadOutcome :=
  let abs_path := if pyStartsWith file_path uploads ∨ pyStartsWith file_path results
                  then file_path else pyJoin base file_path
  if ¬ (pyStartsWith abs_path uploads ∨ pyStartsWith abs_path results ∨
        pyStartsWith abs_path base) then .denied
  else if ¬ fsExists abs_path then .notFound
  else .served abs_path

/-- A candidate record with the main-ligand mark removed: the record
exactly as built inside the residue loop, before the post-sort marking
of the head. -/
def eraseMain (i : LigandInfo) : LigandInfo :=
  { i with is_main_ligand := false }

/-- All (chain id, residue) pairs of a structure, in the traversal
order of the nested loops of _find_ligands. -/
def residueEntries (s : PyStructure) : List (String × PyResidue) :=
  (s.map (fun model =>
    (model.map (fun chain =>
      chain.residues.map (fun r => (chain.id, r)))).flatten)).flatten

/-- An atom named `n` at coordinate (1, 2, 3), for concrete instances. -/
def sampleAtom (n : String) : PyAtom :=
  ⟨n, ⟨1, 2, 3⟩⟩

/-- A qualifying hetero residue with 4 non-hydrogen atoms. -/
def sampleLIG : PyResidue :=
  ⟨"H_LIG", 42, "LIG",
   [sampleAtom "C1", sampleAtom "C2", sampleAtom "C3", sampleAtom "C4"],
   some "CCCC"⟩

/-- A qualifying hetero residue with 5 non-hydrogen atoms. -/
def sampleBIG : PyResidue :=
  ⟨"H_BIG", 8, "BIG",
   [sampleAtom "C1", sampleAtom "C2", sampleAtom "C3", sampleAtom "C4",
    sampleAtom "C5"],
   some "CCCCC"⟩

/-- A water residue (hetero-flagged, excluded by name). -/
def sampleWater : PyResidue :=
  ⟨"W", 1, "HOH", [sampleAtom "O"], none⟩

/-- A concrete structure with two qualifying candidates. -/
def sampleStructure : PyStructure :=
  [[⟨"A", [sampleLIG, sampleBIG]⟩]]

/-- A concrete structure with no qualifying candidate (a single water
residue). -/
def emptyCandStructure : PyStructure :=
  [[⟨"A", [sampleWater]⟩]]

/-- A mercury atom: a non-hydrogen heavy atom whose PDB atom name
"HG" nevertheless starts with the character 'H'. -/
def mercuryAtom : PyAtom :=
  ⟨"HG", ⟨7, 8, 9⟩⟩

/-- A concrete header line of captured Vina output (non-blank, no
separator occurrence). -/
def vinaHeaderLine : OutLine :=
  ⟨false, [⟨none, none⟩, ⟨none, none⟩]⟩

/-- A concrete separator line of captured Vina output. -/
def vinaSepLine : OutLine :=
  ⟨true, [⟨none, none⟩]⟩

/-- A concrete well-formed score row: mode 1, affinity -9.5. -/
def vinaRow1 : OutLine :=
  ⟨false, [⟨some 1, some 1⟩, ⟨none, some (mkRat (-95) 10)⟩,
           ⟨none, some 0⟩, ⟨none, some 0⟩]⟩

/-- A concrete malformed score row (only two fields). -/
def vinaBadRow : OutLine :=
  ⟨false, [⟨none, none⟩, ⟨none, none⟩]⟩

/-- A concrete well-formed score row: mode 2, affinity -7.2. -/
def vinaRow2 : OutLine :=
  ⟨false, [⟨some 2, some 2⟩, ⟨none, some (mkRat (-72) 10)⟩,
           ⟨none, some 1⟩, ⟨none, some 2⟩]⟩

/-- A concrete blank line. -/
def vinaBlankLine : OutLine :=
  ⟨false, []⟩

/-- A concrete non-blank line after the table (ignored by the parser
once the blank line has been seen). -/
def vinaTrailingLine : OutLine :=
  ⟨false, [⟨some 9, some 9⟩, ⟨none, some 0⟩, ⟨none, some 0⟩,
           ⟨none, some 0⟩]⟩

/-- The concrete table rows of the C3 instance. -/
def vinaRows : List OutLine :=
  [vinaRow1, vinaBadRow, vinaRow2]

/-! Helper lemmas. -/

theorem candidateOfResidue_not_main {cid : String} {r : PyResidue} {i : LigandInfo}
    (h : candidateOfResidue cid r = some i) : i.is_main_ligand = false := by
  unfold candidateOfResidue at h
  split at h
  · split at h
    · exact absurd h (by simp)
    · split at h
      · split at h
        · simp only [Option.some.injEq] at h
          subst h
          rfl
        · exact absurd h (by simp)
      · exact absurd h (by simp)
  · exact absurd h (by simp)

theorem rawLigands_not_main {s : PyStructure} {i : LigandInfo}
    (h : i ∈ rawLigands s) : i.is_main_ligand = false := by
  simp only [rawLigands, List.mem_flatten, List.mem_map] at h
  obtain ⟨l1, ⟨model, hmodel, rfl⟩, hl1⟩ := h
  simp only [List.mem_flatten, List.mem_map] at hl1
  obtain ⟨l2, ⟨chain, hchain, rfl⟩, hl2⟩ := hl1
  simp only [List.mem_filterMap] at hl2
  obtain ⟨r, hr, hcand⟩ := hl2
  exact candidateOfResidue_not_main hcand

theorem find_ligands_eq (s : PyStructure) :
    find_ligands s = match (rawLigands s).mergeSort ligandGE with
      | [] => []
      | h :: t => { h with is_main_ligand := true } :: t := rfl

theorem ligandGE_trans : ∀ a b c : LigandInfo,
    ligandGE a b = true → ligandGE b c = true → ligandGE a c = true := by
  intro a b c
  simp only [ligandGE, decide_eq_true_eq]
  omega

theorem ligandGE_total : ∀ a b : LigandInfo,
    (ligandGE a b || ligandGE b a) = true := by
  intro a b
  simp only [ligandGE, Bool.or_eq_true, decide_eq_true_eq]
  omega

/-- C1.  For every structure whose candidate list is non-empty,
exactly one candidate carries the is_main_ligand flag, that candidate
is the first element, the list is ordered by non-hydrogen atom count
descending, and the flagged candidate's atom count is the maximum over
all returned candidates. -/
theorem find_ligands_main_invariant (s : PyStructure)
    (hne : find_ligands s ≠ []) :
    ∃ m t, find_ligands s = m :: t ∧
      m.is_main_ligand = true ∧
      (find_ligands s).countP (fun i => i.is_main_ligand) = 1 ∧
      (find_ligands s).Pairwise (fun a b => b.atoms ≤ a.atoms) ∧
      ∀ i ∈ find_ligands s, i.atoms ≤ m.atoms := by
  rcases hs : (rawLigands s).mergeSort ligandGE with _ | ⟨h0, t⟩
  · exfalso
    apply hne
    rw [find_ligands_eq, hs]
  · have heq : find_ligands s = { h0 with is_main_ligand := true } :: t := by
      rw [find_ligands_eq, hs]
    have htail : ∀ i ∈ t, i.is_main_ligand = false := by
      intro i hi
      have hmem : i ∈ (rawLigands s).mergeSort ligandGE := by
        rw [hs]
        exact List.mem_cons_of_mem _ hi
      exact rawLigands_not_main
        ((List.mergeSort_perm (rawLigands s) ligandGE).mem_iff.mp hmem)
    have hpw := List.sorted_mergeSort ligandGE_trans ligandGE_total (rawLigands s)
    rw [hs] at hpw
    have hpw' : (h0 :: t).Pairwise (fun a b : LigandInfo => b.atoms ≤ a.atoms) := by
      refine hpw.imp ?_
      intro a b hab
      simpa [ligandGE] using hab
    obtain ⟨hhead, htailpw⟩ := List.pairwise_cons.mp hpw'
    refine ⟨{ h0 with is_main_ligand := true }, t, heq, rfl, ?_, ?_, ?_⟩
    · rw [heq]
      have hz : t.countP (fun i => i.is_main_ligand) = 0 := by
        rw [List.countP_eq_zero]
        intro i hi
        simp [htail i hi]
      simp [List.countP_cons, hz]
    · rw [heq]
      exact List.pairwise_cons.mpr ⟨fun b hb => hhead b hb, htailpw⟩
    · intro i hi
      rw [heq] at hi
      rcases List.mem_cons.mp hi with hi | hi
      · subst hi
        exact le_refl _
      · exact hhead i hi

theorem find_ligands_length (s : PyStructure) :
    (find_ligands s).length = (rawLigands s).length := by
  have hp := (List.mergeSort_perm (rawLigands s) ligandGE).length_eq
  rcases hs : (rawLigands s).mergeSort ligandGE with _ | ⟨h0, t⟩
  · rw [hs] at hp
    rw [find_ligands_eq, hs]
    exact hp
  · rw [hs] at hp
    rw [find_ligands_eq, hs]
    simpa using hp

theorem find_ligands_ne_nil {s : PyStructure} (h : rawLigands s ≠ []) :
    find_ligands s ≠ [] := by
  intro hcon
  apply h
  have hl := find_ligands_length s
  rw [hcon] at hl
  exact List.length_eq_zero.mp hl.symm

/-- Witness for C1: the invariant instantiated at a concrete
two-candidate structure. -/
theorem find_ligands_main_invariant_witness :
    ∃ m t, find_ligands sampleStructure = m :: t ∧
      m.is_main_ligand = true ∧
      (find_ligands sampleStructure).countP (fun i => i.is_main_ligand) = 1 ∧
      (find_ligands sampleStructure).Pairwise (fun a b => b.atoms ≤ a.atoms) ∧
      ∀ i ∈ find_ligands sampleStructure, i.atoms ≤ m.atoms :=
  find_ligands_main_invariant sampleStructure (find_ligands_ne_nil (by decide))

theorem get_centroid_eq_none_iff (r : PyResidue) :
    get_centroid r = none ↔ nonHAtoms r = [] := by
  unfold get_centroid
  by_cases h : ((nonHAtoms r).map PyAtom.coord).isEmpty = true
  · rw [if_pos h]
    simp only [List.isEmpty_iff, List.map_eq_nil_iff] at h
    simp [h]
  · rw [if_neg h]
    simp only [List.isEmpty_iff, List.map_eq_nil_iff] at h
    simp [h]

theorem candidateOfResidue_isSome_iff (cid : String) (r : PyResidue) :
    (candidateOfResidue cid r).isSome ↔
      (pyStrip r.hetfield ≠ "" ∧ r.resname ∉ excluded_residues ∧
        nonHAtoms r ≠ [] ∧ optStrTruthy r.smilesResult = true ∧
        atomCount r > 3) := by
  unfold candidateOfResidue
  by_cases h1 : pyStrip r.hetfield ≠ "" ∧ r.resname ∉ excluded_residues
  · rw [if_pos h1]
    cases hc : get_centroid r with
    | none =>
      have hnil : nonHAtoms r = [] := (get_centroid_eq_none_iff r).mp hc
      simp [hnil]
    | some c =>
      have hne : nonHAtoms r ≠ [] := by
        intro hx
        rw [(get_centroid_eq_none_iff r).mpr hx] at hc
        cases hc
      by_cases h4 : optStrTruthy r.smilesResult = true
      · by_cases h5 : atomCount r > 3
        · simp [h4, h5, h1.1, h1.2, hne]
        · simp [h4, h5]
      · simp [h4]
  · rw [if_neg h1]
    simp only [Option.isSome_none, Bool.false_eq_true, false_iff]
    intro hcon
    exact h1 ⟨hcon.1, hcon.2.1⟩

theorem rawLigands_eq_filterMap (s : PyStructure) :
    rawLigands s =
      (residueEntries s).filterMap (fun p => candidateOfResidue p.1 p.2) := by
  unfold rawLigands residueEntries
  induction s with
  | nil => rfl
  | cons m ms ih =>
    simp only [List.map_cons, List.flatten_cons, List.filterMap_append, ih]
    congr 1
    induction m with
    | nil => rfl
    | cons c cs ihc =>
      simp only [List.map_cons, List.flatten_cons, List.filterMap_append, ihc]
      congr 1
      rw [List.filterMap_map]
      rfl

theorem eraseMain_of_not_main {i : LigandInfo} (h : i.is_main_ligand = false) :
    eraseMain i = i := by
  cases i
  simp only [eraseMain]
  simp_all

theorem find_ligands_map_eraseMain (s : PyStructure) :
    (find_ligands s).map eraseMain = (rawLigands s).mergeSort ligandGE := by
  rcases hs : (rawLigands s).mergeSort ligandGE with _ | ⟨h0, t⟩
  · rw [find_ligands_eq, hs]
    rfl
  · have hmem : ∀ i ∈ (rawLigands s).mergeSort ligandGE, i.is_main_ligand = false := by
      intro i hi
      exact rawLigands_not_main
        ((List.mergeSort_perm (rawLigands s) ligandGE).mem_iff.mp hi)
    have hh0 : h0.is_main_ligand = false := hmem h0 (by rw [hs]; exact List.mem_cons_self _ _)
    have heq : find_ligands s = { h0 with is_main_ligand := true } :: t := by
      rw [find_ligands_eq, hs]
    rw [heq, List.map_cons]
    have h1 : eraseMain { h0 with is_main_ligand := true } = h0 := by
      have := eraseMain_of_not_main hh0
      unfold eraseMain at *
      cases h0
      simp_all
    have h2 : t.map eraseMain = t := by
      have : ∀ i ∈ t, eraseMain i = i := by
        intro i hi
        exact eraseMain_of_not_main (hmem i (by rw [hs]; exact List.mem_cons_of_mem _ hi))
      calc t.map eraseMain = t.map id := List.map_congr_left this
        _ = t := List.map_id t
    rw [h1, h2]

theorem find_ligands_eraseMain_perm (s : PyStructure) :
    ((find_ligands s).map eraseMain).Perm (rawLigands s) := by
  rw [find_ligands_map_eraseMain]
  exact List.mergeSort_perm (rawLigands s) ligandGE

/-- C2.  A residue of the structure appears in the candidate list iff
it is hetero-flagged, its name is outside the exclusion set, it has at
least one non-hydrogen atom, its SMILES derivation succeeds (truthy),
and its non-hydrogen atom count exceeds 3; and every candidate in the
list arises this way from some residue of the structure.  The analysis
is a total function, so failing residues are skipped without aborting
it. -/
theorem find_ligands_candidate_iff (s : PyStructure) (cid : String)
    (r : PyResidue) (hentry : (cid, r) ∈ residueEntries s) :
    ((∃ i ∈ find_ligands s, candidateOfResidue cid r = some (eraseMain i)) ↔
      (pyStrip r.hetfield ≠ "" ∧ r.resname ∉ excluded_residues ∧
        nonHAtoms r ≠ [] ∧ optStrTruthy r.smilesResult = true ∧
        atomCount r > 3)) ∧
    (∀ i ∈ find_ligands s, ∃ q ∈ residueEntries s,
      candidateOfResidue q.1 q.2 = some (eraseMain i)) := by
  constructor
  · constructor
    · rintro ⟨i, _, hi⟩
      exact (candidateOfResidue_isSome_iff cid r).mp (by rw [hi]; rfl)
    · intro hcond
      have hsome := (candidateOfResidue_isSome_iff cid r).mpr hcond
      obtain ⟨j, hj⟩ := Option.isSome_iff_exists.mp hsome
      have hjraw : j ∈ rawLigands s := by
        rw [rawLigands_eq_filterMap]
        exact List.mem_filterMap.mpr ⟨(cid, r), hentry, hj⟩
      have : j ∈ (find_ligands s).map eraseMain :=
        (find_ligands_eraseMain_perm s).mem_iff.mpr hjraw
      obtain ⟨i, hi, hie⟩ := List.mem_map.mp this
      exact ⟨i, hi, by rw [hj, hie]⟩
  · intro i hi
    have : eraseMain i ∈ rawLigands s :=
      (find_ligands_eraseMain_perm s).mem_iff.mp (List.mem_map_of_mem eraseMain hi)
    rw [rawLigands_eq_filterMap] at this
    obtain ⟨q, hq, hcand⟩ := List.mem_filterMap.mp this
    exact ⟨q, hq, hcand⟩

/-- Witness for C2: the characterization instantiated at the
qualifying residue of a concrete structure. -/
theorem find_ligands_candidate_iff_witness :
    ((∃ i ∈ find_ligands sampleStructure,
        candidateOfResidue "A" sampleLIG = some (eraseMain i)) ↔
      (pyStrip sampleLIG.hetfield ≠ "" ∧
        sampleLIG.resname ∉ excluded_residues ∧
        nonHAtoms sampleLIG ≠ [] ∧
        optStrTruthy sampleLIG.smilesResult = true ∧
        atomCount sampleLIG > 3)) ∧
    (∀ i ∈ find_ligands sampleStructure, ∃ q ∈ residueEntries sampleStructure,
      candidateOfResidue q.1 q.2 = some (eraseMain i)) :=
  find_ligands_candidate_iff sampleStructure "A" sampleLIG (by decide)

/-- C10.  An atom counts as hydrogen exactly when its name starts with
'H': membership in the non-hydrogen atom set is equivalent to the name
not starting with 'H', and adding an atom whose name starts with 'H'
(such as mercury, atom name "HG") changes neither the reported
non-hydrogen atom count nor the reported centroid. -/
theorem hydrogen_by_name_startsWith (r : PyResidue) (a : PyAtom)
    (h : pyStartsWith a.name "H" = true) :
    atomCount { r with atoms := a :: r.atoms } = atomCount r ∧
    get_centroid { r with atoms := a :: r.atoms } = get_centroid r ∧
    a ∉ nonHAtoms { r with atoms := a :: r.atoms } ∧
    (∀ b ∈ r.atoms, (b ∈ nonHAtoms r ↔ pyStartsWith b.name "H" = false)) := by
  have hfilter : nonHAtoms { r with atoms := a :: r.atoms } = nonHAtoms r := by
    unfold nonHAtoms
    simp [List.filter_cons, h]
  refine ⟨?_, ?_, ?_, ?_⟩
  · unfold atomCount
    rw [hfilter]
  · unfold get_centroid
    rw [hfilter]
  · rw [hfilter]
    intro hmem
    unfold nonHAtoms at hmem
    have := List.of_mem_filter hmem
    simp [h] at this
  · intro b hb
    unfold nonHAtoms
    rw [List.mem_filter]
    constructor
    · intro hmem
      have := hmem.2
      simpa using this
    · intro hbn
      exact ⟨hb, by simpa using hbn⟩

/-- Witness for C10: adding a mercury atom (name "HG") to a concrete
residue changes neither the count nor the centroid, and the
classification of the residue's atoms is by name prefix. -/
theorem hydrogen_by_name_startsWith_witness :
    atomCount { sampleLIG with atoms := mercuryAtom :: sampleLIG.atoms } = atomCount sampleLIG ∧
    get_centroid { sampleLIG with atoms := mercuryAtom :: sampleLIG.atoms } = get_centroid sampleLIG ∧
    mercuryAtom ∉ nonHAtoms { sampleLIG with atoms := mercuryAtom :: sampleLIG.atoms } ∧
    (∀ b ∈ sampleLIG.atoms, (b ∈ nonHAtoms sampleLIG ↔ pyStartsWith b.name "H" = false)) :=
  hydrogen_by_name_startsWith sampleLIG mercuryAtom (by decide)

theorem find_ligands_eq_nil {s : PyStructure} (h : rawLigands s = []) :
    find_ligands s = [] := by
  have hl := find_ligands_length s
  rw [h] at hl
  exact List.length_eq_zero.mp hl

/-- C5.  When no residue qualifies, analysis returns an empty
candidate list, an empty active site, the original input path as the
clean-structure path, and writes no file; the function returns
normally (no error). -/
theorem analyze_structure_no_ligands (s : PyStructure) (path : String)
    (h : find_ligands s = []) :
    analyze_structure s path = (⟨[], none, path⟩, []) := by
  simp [analyze_structure, h]

/-- Witness for C5: a structure containing only a water residue. -/
theorem analyze_structure_no_ligands_witness :
    analyze_structure emptyCandStructure "/tmp/input.pdb" =
      (⟨[], none, "/tmp/input.pdb"⟩, []) :=
  analyze_structure_no_ligands emptyCandStructure "/tmp/input.pdb"
    (find_ligands_eq_nil (by decide))

theorem pyMinByAffinity_foldl (h : Score) (t : List Score) :
    (t.foldl (fun acc x => if x.affinity < acc.affinity then x else acc) h) ∈ (h :: t) ∧
    ∀ x ∈ h :: t,
      (t.foldl (fun acc x => if x.affinity < acc.affinity then x else acc) h).affinity
        ≤ x.affinity := by
  induction t generalizing h with
  | nil => simp
  | cons y ys ih =>
    simp only [List.foldl_cons]
    by_cases hc : y.affinity < h.affinity
    · rw [if_pos hc]
      obtain ⟨hm, hle⟩ := ih y
      constructor
      · rcases List.mem_cons.mp hm with h1 | h1
        · rw [h1]
          exact List.mem_cons_of_mem _ (List.mem_cons_self _ _)
        · exact List.mem_cons_of_mem _ (List.mem_cons_of_mem _ h1)
      · intro x hx
        rcases List.mem_cons.mp hx with h1 | h1
        · subst h1
          exact le_trans (hle y (List.mem_cons_self _ _)) (le_of_lt hc)
        · exact hle x h1
    · rw [if_neg hc]
      obtain ⟨hm, hle⟩ := ih h
      constructor
      · rcases List.mem_cons.mp hm with h1 | h1
        · rw [h1]
          exact List.mem_cons_self _ _
        · exact List.mem_cons_of_mem _ (List.mem_cons_of_mem _ h1)
      · intro x hx
        rcases List.mem_cons.mp hx with h1 | h1
        · rw [h1]
          exact hle h (List.mem_cons_self _ _)
        · rcases List.mem_cons.mp h1 with h2 | h2
          · rw [h2]
            exact le_trans (hle h (List.mem_cons_self _ _)) (le_of_not_lt hc)
          · exact hle x (List.mem_cons_of_mem _ h2)

/-- C4.  For every non-empty score list, the orchestration layer
reports as best binding affinity the affinity of a record of the list
that is minimal among all records (selected explicitly with `min` by
affinity key, not by engine mode order); in particular, among
affinities -9.5 and -7.2 the -9.5 record is selected. -/
theorem dock_ligand_best_affinity (scores : List Score) (path : String)
    (hne : scores ≠ []) :
    (∃ b, b ∈ scores ∧ (∀ x ∈ scores, b.affinity ≤ x.affinity) ∧
      (dock_ligand_post (.success scores path)).1 = .ok (some b.affinity)) ∧
    pyMinByAffinity
        [⟨1, mkRat (-95) 10, 0, 0⟩, ⟨2, mkRat (-72) 10, 0, 0⟩] =
      some ⟨1, mkRat (-95) 10, 0, 0⟩ := by
  constructor
  · cases scores with
    | nil => exact absurd rfl hne
    | cons h t =>
      obtain ⟨hm, hle⟩ := pyMinByAffinity_foldl h t
      exact ⟨_, hm, hle, rfl⟩
  · decide

/-- Witness for C4 at the concrete two-score list of the claim. -/
theorem dock_ligand_best_affinity_witness :
    (∃ b, b ∈ [(⟨1, mkRat (-95) 10, 0, 0⟩ : Score), ⟨2, mkRat (-72) 10, 0, 0⟩] ∧
      (∀ x ∈ [(⟨1, mkRat (-95) 10, 0, 0⟩ : Score), ⟨2, mkRat (-72) 10, 0, 0⟩],
        b.affinity ≤ x.affinity) ∧
      (dock_ligand_post (.success
          [⟨1, mkRat (-95) 10, 0, 0⟩, ⟨2, mkRat (-72) 10, 0, 0⟩] "out.pdbqt")).1 =
        .ok (some b.affinity)) ∧
    pyMinByAffinity
        [⟨1, mkRat (-95) 10, 0, 0⟩, ⟨2, mkRat (-72) 10, 0, 0⟩] =
      some ⟨1, mkRat (-95) 10, 0, 0⟩ :=
  dock_ligand_best_affinity
    [⟨1, mkRat (-95) 10, 0, 0⟩, ⟨2, mkRat (-72) 10, 0, 0⟩] "out.pdbqt" (by decide)

theorem parseScoreLines_skip (pre rest : List OutLine)
    (hpre : ∀ l ∈ pre, l.hasSep = false) :
    parseScoreLines false (pre ++ rest) = parseScoreLines false rest := by
  induction pre with
  | nil => rfl
  | cons p ps ih =>
    have hp : p.hasSep = false := hpre p (List.mem_cons_self _ _)
    simp only [List.cons_append, parseScoreLines, hp]
    simp only [Bool.false_eq_true, if_false, false_and, if_false]
    exact ih (fun l hl => hpre l (List.mem_cons_of_mem _ hl))

theorem parseScoreLines_rows (rows : List OutLine) (blankL : OutLine)
    (rest : List OutLine)
    (hrows : ∀ l ∈ rows, l.hasSep = false ∧ l.tokens ≠ [])
    (hblank : blankL.hasSep = false ∧ blankL.tokens = []) :
    parseScoreLines true (rows ++ blankL :: rest) =
      rows.filterMap (fun l => parseScoreRow l.tokens) := by
  induction rows with
  | nil =>
    simp only [List.nil_append, parseScoreLines, hblank.1, hblank.2]
    simp [List.isEmpty_iff, hblank.2]
  | cons r rs ih =>
    obtain ⟨h1, h2⟩ := hrows r (List.mem_cons_self _ _)
    have hne : r.tokens.isEmpty = false := by
      simpa [List.isEmpty_iff] using h2
    have ih' := ih (fun l hl => hrows l (List.mem_cons_of_mem _ hl))
    simp only [List.cons_append, parseScoreLines, h1, hne]
    simp only [Bool.false_eq_true, if_false, and_false, if_false, if_true, true_and]
    cases hp : parseScoreRow r.tokens with
    | none => simp [List.filterMap_cons, hp, ih']
    | some sc => simp [List.filterMap_cons, hp, ih']

theorem filterMap_length_of_isSome {α β : Type} (f : α → Option β)
    (l : List α) (h : ∀ x ∈ l, (f x).isSome) :
    (l.filterMap f).length = l.length := by
  induction l with
  | nil => rfl
  | cons a as ih =>
    obtain ⟨b, hb⟩ := Option.isSome_iff_exists.mp (h a (List.mem_cons_self _ _))
    simp only [List.filterMap_cons, hb, List.length_cons]
    rw [ih (fun x hx => h x (List.mem_cons_of_mem _ hx))]

/-- C3.  For captured engine stdout of the shape
`pre ++ separator ++ rows ++ blank ++ rest` — no separator occurrence
before the separator line, every table row non-blank and
separator-free, the terminating line blank — the parser collects
exactly the parseable rows, in input order (`filterMap`); if every row
is well-formed (at least four fields, parsing as int/float/float/float)
the output has exactly one record per row; and a zero-exit run is
reported successful whatever the number of parseable rows, in
particular with an empty score sequence when no row parses. -/
theorem run_docking_parse_table (pre rows rest : List OutLine)
    (sepLine blankLine : OutLine)
    (hpre : ∀ l ∈ pre, l.hasSep = false)
    (hsep : sepLine.hasSep = true)
    (hrows : ∀ l ∈ rows, l.hasSep = false ∧ l.tokens ≠ [])
    (hblank : blankLine.hasSep = false ∧ blankLine.tokens = [])
    (stderr path : String) :
    run_docking (.exited 0 (pre ++ sepLine :: (rows ++ blankLine :: rest)) stderr) path
      = .success (rows.filterMap (fun l => parseScoreRow l.tokens)) path ∧
    ((∀ l ∈ rows, (parseScoreRow l.tokens).isSome) →
      (rows.filterMap (fun l => parseScoreRow l.tokens)).length = rows.length) := by
  constructor
  · simp only [run_docking]
    rw [if_neg (by decide)]
    rw [parseScoreLines_skip pre _ hpre]
    simp only [parseScoreLines, hsep, if_true]
    rw [parseScoreLines_rows rows blankLine rest hrows hblank]
  · intro hwf
    exact filterMap_length_of_isSome _ rows hwf

/-- Witness for C3: a concrete two-row table with one malformed row
between them, preceded by a header and followed by trailing output. -/
theorem run_docking_parse_table_witness :
    run_docking (.exited 0
        ([vinaHeaderLine] ++ vinaSepLine :: (vinaRows ++ vinaBlankLine :: [vinaTrailingLine]))
        "") "out.pdbqt"
      = .success (vinaRows.filterMap (fun l => parseScoreRow l.tokens)) "out.pdbqt" ∧
    ((∀ l ∈ vinaRows, (parseScoreRow l.tokens).isSome) →
      (vinaRows.filterMap (fun l => parseScoreRow l.tokens)).length = vinaRows.length) :=
  run_docking_parse_table [vinaHeaderLine] vinaRows [vinaTrailingLine]
    vinaSepLine vinaBlankLine
    (by decide) (by decide) (by decide) (by decide) "" "out.pdbqt"

/-- C7.  A docking run whose engine process exits non-zero (or fails
to spawn) yields a failed result whose error text contains the
captured stderr verbatim (as the suffix of a fixed prefix), carries no
scores, and makes the orchestration layer raise before composing any
complex artifact. -/
theorem run_docking_failure_no_artifact (rc : Int) (hrc : rc ≠ 0)
    (lines : List OutLine) (stderr path : String) :
    (run_docking (.exited rc lines stderr) path =
        .failure ("Vina error: " ++ stderr) ∧
      (∀ scores p, run_docking (.exited rc lines stderr) path ≠ .success scores p) ∧
      dock_ligand_post (run_docking (.exited rc lines stderr) path) =
        (.error ("Docking failed: " ++ ("Vina error: " ++ stderr)), false)) ∧
    (∀ msg, run_docking (.spawnFailure msg) path = .failure msg ∧
      dock_ligand_post (run_docking (.spawnFailure msg) path) =
        (.error ("Docking failed: " ++ msg), false)) := by
  have hfail : run_docking (.exited rc lines stderr) path =
      .failure ("Vina error: " ++ stderr) := by
    simp only [run_docking]
    rw [if_pos hrc]
  refine ⟨⟨hfail, ?_, ?_⟩, ?_⟩
  · intro scores p hcon
    rw [hfail] at hcon
    exact DockRunResult.noConfusion hcon
  · rw [hfail]
    rfl
  · intro msg
    exact ⟨rfl, rfl⟩

/-- Witness for C7 at a concrete non-zero exit code and stderr text. -/
theorem run_docking_failure_no_artifact_witness :
    (run_docking (.exited 1 [] "boom") "out.pdbqt" =
        .failure ("Vina error: " ++ "boom") ∧
      (∀ scores p, run_docking (.exited 1 [] "boom") "out.pdbqt" ≠ .success scores p) ∧
      dock_ligand_post (run_docking (.exited 1 [] "boom") "out.pdbqt") =
        (.error ("Docking failed: " ++ ("Vina error: " ++ "boom")), false)) ∧
    (∀ msg, run_docking (.spawnFailure msg) "out.pdbqt" = .failure msg ∧
      dock_ligand_post (run_docking (.spawnFailure msg) "out.pdbqt") =
        (.error ("Docking failed: " ++ msg), false)) :=
  run_docking_failure_no_artifact 1 (by decide) [] "boom" "out.pdbqt"

/-- C6 counterexample: a request whose resolved path lies under the
application base directory but outside both the uploads root and the
results root is served, not rejected — the security check also accepts
the base directory. -/
theorem download_outside_roots_served :
    pyStartsWith "/srv/dynamicdock/backend/app/config.py"
        "/tmp/dynamic_dock_uploads" = false ∧
    pyStartsWith "/srv/dynamicdock/backend/app/config.py"
        "/tmp/dynamic_dock_results" = false ∧
    download_file "/tmp/dynamic_dock_uploads" "/tmp/dynamic_dock_results"
        "/srv/dynamicdock/backend" (fun _ => true) "app/config.py" =
      .served "/srv/dynamicdock/backend/app/config.py" := by
  decide

/-- C6 amended.  A download request is rejected with access denied
exactly when its resolved path lies outside all three permitted
prefixes — uploads root, results root, and the application base
directory — and such a rejection is decided independently of the
filesystem (before any read of the target); paths under the base
directory are also served. -/
theorem download_file_root_policy (uploads results base fp : String)
    (fsE : String → Bool) (resolved : String)
    (hres : resolved =
      (if pyStartsWith fp uploads ∨ pyStartsWith fp results then fp
       else pyJoin base fp)) :
    (download_file uploads results base fsE fp = .denied ↔
      (pyStartsWith resolved uploads = false ∧
       pyStartsWith resolved results = false ∧
       pyStartsWith resolved base = false)) ∧
    (download_file uploads results base fsE fp = .denied →
      ∀ fsE2 : String → Bool,
        download_file uploads results base fsE2 fp = .denied) := by
  subst hres
  have hbody : ∀ g : String → Bool,
      download_file uploads results base g fp =
        (if ¬ (pyStartsWith (if pyStartsWith fp uploads ∨ pyStartsWith fp results
                              then fp else pyJoin base fp) uploads ∨
               pyStartsWith (if pyStartsWith fp uploads ∨ pyStartsWith fp results
                              then fp else pyJoin base fp) results ∨
               pyStartsWith (if pyStartsWith fp uploads ∨ pyStartsWith fp results
                              then fp else pyJoin base fp) base)
         then .denied
         else if ¬ g (if pyStartsWith fp uploads ∨ pyStartsWith fp results
                       then fp else pyJoin base fp)
         then .notFound
         else .served (if pyStartsWith fp uploads ∨ pyStartsWith fp results
                        then fp else pyJoin base fp)) := by
    intro g
    rfl
  by_cases hroot :
      pyStartsWith (if pyStartsWith fp uploads ∨ pyStartsWith fp results
                     then fp else pyJoin base fp) uploads ∨
      pyStartsWith (if pyStartsWith fp uploads ∨ pyStartsWith fp results
                     then fp else pyJoin base fp) results ∨
      pyStartsWith (if pyStartsWith fp uploads ∨ pyStartsWith fp results
                     then fp else pyJoin base fp) base
  · have hnd : ∀ g : String → Bool,
        download_file uploads results base g fp ≠ .denied := by
      intro g
      rw [hbody g, if_neg (not_not_intro hroot)]
      by_cases hf : g (if pyStartsWith fp uploads ∨ pyStartsWith fp results
                        then fp else pyJoin base fp) = true
      · rw [if_neg (not_not_intro hf)]
        intro hcon
        exact DownloadOutcome.noConfusion hcon
      · rw [if_pos hf]
        intro hcon
        exact DownloadOutcome.noConfusion hcon
    constructor
    · constructor
      · intro hcon
        exact absurd hcon (hnd fsE)
      · rintro ⟨h1, h2, h3⟩
        exact absurd hroot (by simp [h1, h2, h3])
    · intro hcon
      exact absurd hcon (hnd fsE)
  · have hd : ∀ g : String → Bool,
        download_file uploads results base g fp = .denied := by
      intro g
      rw [hbody g, if_pos hroot]
    constructor
    · constructor
      · intro _
        push_neg at hroot
        exact ⟨by simpa using hroot.1, by simpa using hroot.2.1,
               by simpa using hroot.2.2⟩
      · intro _
        exact hd fsE
    · intro _ fsE2
      exact hd fsE2

/-- Witness for C6 amended: the policy instantiated at a concrete
absolute path outside all three prefixes. -/
theorem download_file_root_policy_witness :
    (download_file "/tmp/dynamic_dock_uploads" "/tmp/dynamic_dock_results"
        "/srv/dynamicdock/backend" (fun _ => true) "/etc/passwd" = .denied ↔
      (pyStartsWith "/etc/passwd" "/tmp/dynamic_dock_uploads" = false ∧
       pyStartsWith "/etc/passwd" "/tmp/dynamic_dock_results" = false ∧
       pyStartsWith "/etc/passwd" "/srv/dynamicdock/backend" = false)) ∧
    (download_file "/tmp/dynamic_dock_uploads" "/tmp/dynamic_dock_results"
        "/srv/dynamicdock/backend" (fun _ => true) "/etc/passwd" = .denied →
      ∀ fsE2 : String → Bool,
        download_file "/tmp/dynamic_dock_uploads" "/tmp/dynamic_dock_results"
          "/srv/dynamicdock/backend" fsE2 "/etc/passwd" = .denied) :=
  download_file_root_policy "/tmp/dynamic_dock_uploads"
    "/tmp/dynamic_dock_results" "/srv/dynamicdock/backend" "/etc/passwd"
    (fun _ => true) "/etc/passwd" (by decide)

/-- C8 counterexample: when the ligand conversion exits 0 without
creating the converted file, composition fails after the output path
has already been opened for writing and partially filled — the output
path's prior content "OLD" is destroyed and a partial file holding
only the receptor's atom line is left. -/
theorem save_docked_complex_partial_file :
    (save_docked_complex (.ok none) (.ok none)
        [("/res/out.pdb", ["OLD"]), ("/up/rec.pdb", ["ATOM 1", "END"])]
        "/up/rec.pdb" "/res/d.pdbqt" "/res/out.pdb").2 =
      .error "Failed to save docked complex: No such file or directory: /res/d_ligand.pdb" ∧
    fsRead (save_docked_complex (.ok none) (.ok none)
        [("/res/out.pdb", ["OLD"]), ("/up/rec.pdb", ["ATOM 1", "END"])]
        "/up/rec.pdb" "/res/d.pdbqt" "/res/out.pdb").1 "/res/out.pdb" =
      some ["ATOM 1"] ∧
    fsRead [("/res/out.pdb", ["OLD"]), ("/up/rec.pdb", ["ATOM 1", "END"])]
        "/res/out.pdb" = some ["OLD"] ∧
    (["ATOM 1"] : List String) ≠ ["OLD"] :=
  ⟨rfl, rfl, rfl, by decide⟩

theorem find?_filter_ne (fs : FS) (p q : String) (h : p ≠ q) :
    (fs.filter (fun e => e.1 ≠ p)).find? (fun e => e.1 = q) =
      fs.find? (fun e => e.1 = q) := by
  induction fs with
  | nil => rfl
  | cons e es ih =>
    rw [List.filter_cons]
    by_cases he : e.1 = p
    · rw [if_neg (by simp [he])]
      rw [List.find?_cons_of_neg es (by simp [he, h])]
      exact ih
    · rw [if_pos (by simp [he])]
      by_cases hq : e.1 = q
      · rw [List.find?_cons_of_pos _ (by simp [hq]),
            List.find?_cons_of_pos _ (by simp [hq])]
      · rw [List.find?_cons_of_neg _ (by simp [hq]),
            List.find?_cons_of_neg _ (by simp [hq])]
        exact ih

theorem fsRead_fsWrite_ne (fs : FS) (p q : String) (c : List String)
    (h : p ≠ q) : fsRead (fsWrite fs p c) q = fsRead fs q := by
  unfold fsRead fsWrite
  rw [List.find?_cons_of_neg _ (by simp [h])]
  rw [find?_filter_ne fs p q h]

/-- C8 amended.  Every composition failure aborts with a descriptive
error; a conversion-subprocess failure happens before the output file
is opened and leaves the filesystem — in particular the output path —
unchanged; but an I/O failure after the output has been opened for
writing (a missing converted receptor or ligand file) leaves a
truncated or partially written file at the output path rather than its
prior content. -/
theorem save_docked_complex_failure_semantics (rc lc : ObabelRun) (fs : FS)
    (rp dp op : String) :
    (pyEndsWith rp ".pdbqt" = true → rc = .fail →
      save_docked_complex rc lc fs rp dp op =
        (fs, .error "Failed to save docked complex: obabel returned non-zero exit status")) ∧
    (lc = .fail →
      (save_docked_complex rc lc fs rp dp op).2 =
        .error "Failed to save docked complex: obabel returned non-zero exit status" ∧
      ((if pyEndsWith rp ".pdbqt" then pyReplace rp ".pdbqt" ".pdb" else rp) ≠ op →
        fsRead (save_docked_complex rc lc fs rp dp op).1 op = fsRead fs op)) := by
  constructor
  · intro he hrc
    subst hrc
    simp [save_docked_complex, he]
  · intro hlc
    subst hlc
    by_cases he : pyEndsWith rp ".pdbqt" = true
    · cases rc with
      | fail =>
        constructor
        · simp [save_docked_complex, he]
        · intro _
          simp [save_docked_complex, he]
      | ok w =>
        cases w with
        | none =>
          constructor
          · simp [save_docked_complex, he]
          · intro _
            simp [save_docked_complex, he]
        | some content =>
          constructor
          · simp [save_docked_complex, he]
          · intro hne
            rw [if_pos he] at hne
            simp only [save_docked_complex, he, if_true]
            exact fsRead_fsWrite_ne fs _ op content hne
    · have he' : pyEndsWith rp ".pdbqt" = false := by
        simpa using he
      constructor
      · simp [save_docked_complex, he']
      · intro _
        simp [save_docked_complex, he']

/-- Witness for C8 amended: a receptor-conversion failure leaves the
filesystem untouched, and a ligand-conversion failure after a
successful receptor conversion leaves the output path's content
unchanged. -/
theorem save_docked_complex_failure_semantics_witness :
    save_docked_complex .fail (.ok none) [("/res/out.pdb", ["OLD"])]
        "/up/rec.pdbqt" "/res/d.pdbqt" "/res/out.pdb" =
      ([("/res/out.pdb", ["OLD"])],
       .error "Failed to save docked complex: obabel returned non-zero exit status") ∧
    ((save_docked_complex (.ok (some ["ATOM 9"])) .fail [("/res/out.pdb", ["OLD"])]
        "/up/rec.pdbqt" "/res/d.pdbqt" "/res/out.pdb").2 =
      .error "Failed to save docked complex: obabel returned non-zero exit status" ∧
     fsRead (save_docked_complex (.ok (some ["ATOM 9"])) .fail
        [("/res/out.pdb", ["OLD"])]
        "/up/rec.pdbqt" "/res/d.pdbqt" "/res/out.pdb").1 "/res/out.pdb" =
      fsRead [("/res/out.pdb", ["OLD"])] "/res/out.pdb") :=
  ⟨(save_docked_complex_failure_semantics .fail (.ok none)
      [("/res/out.pdb", ["OLD"])] "/up/rec.pdbqt" "/res/d.pdbqt"
      "/res/out.pdb").1 (by decide) rfl,
   ((save_docked_complex_failure_semantics (.ok (some ["ATOM 9"])) .fail
      [("/res/out.pdb", ["OLD"])] "/up/rec.pdbqt" "/res/d.pdbqt"
      "/res/out.pdb").2 rfl).1,
   ((save_docked_complex_failure_semantics (.ok (some ["ATOM 9"])) .fail
      [("/res/out.pdb", ["OLD"])] "/up/rec.pdbqt" "/res/d.pdbqt"
      "/res/out.pdb").2 rfl).2 (by decide)⟩

theorem splitAtSep_append (k v : List Char) (hk : ∀ c ∈ k, c ≠ ' ') :
    splitAtSep (k ++ ' ' :: '=' :: ' ' :: v) = some (k, v) := by
  induction k with
  | nil => rfl
  | cons c cs ih =>
    have hc : c ≠ ' ' := hk c (List.mem_cons_self _ _)
    rw [List.cons_append]
    show (if c = ' ' then _ else (splitAtSep (cs ++ ' ' :: '=' :: ' ' :: v)).map
      (fun p => (c :: p.1, p.2))) = _
    rw [if_neg hc]
    rw [ih (fun x hx => hk x (List.mem_cons_of_mem _ hx))]
    rfl

theorem parseConfigLine_mk (k v : String) (hk : ∀ c ∈ k.data, c ≠ ' ') :
    parseConfigLine (k ++ " = " ++ v) = some (k, v) := by
  unfold parseConfigLine
  have hdata : (k ++ " = " ++ v).data = k.data ++ ' ' :: '=' :: ' ' :: v.data := by
    simp [String.data_append]
  rw [hdata, splitAtSep_append k.data v.data hk]
  rfl

/-- C9.  For every input, the configuration builder produces exactly
eight key/value pairs, and re-reading the written `key = value` lines
(the reader modelled from the spec) recovers exactly the same eight
pairs, in order — hence the same pairs under any notion of key
ordering. -/
theorem prepare_docking_config_roundtrip
    (cx cy cz sx sy sz : Rat) (ex nm : Int) :
    (prepare_docking_config cx cy cz sx sy sz ex nm).length = 8 ∧
    readConfigLines (configLines (prepare_docking_config cx cy cz sx sy sz ex nm)) =
      prepare_docking_config cx cy cz sx sy sz ex nm := by
  constructor
  · rfl
  · have h1 := parseConfigLine_mk "center_x" (pyFloatStr cx) (by decide)
    have h2 := parseConfigLine_mk "center_y" (pyFloatStr cy) (by decide)
    have h3 := parseConfigLine_mk "center_z" (pyFloatStr cz) (by decide)
    have h4 := parseConfigLine_mk "size_x" (pyFloatStr sx) (by decide)
    have h5 := parseConfigLine_mk "size_y" (pyFloatStr sy) (by decide)
    have h6 := parseConfigLine_mk "size_z" (pyFloatStr sz) (by decide)
    have h7 := parseConfigLine_mk "exhaustiveness" (pyIntStr ex) (by decide)
    have h8 := parseConfigLine_mk "num_modes" (pyIntStr nm) (by decide)
    simp only [prepare_docking_config, configLines, readConfigLines,
      List.map_cons, List.map_nil, List.filterMap_cons, List.filterMap_nil,
      h1, h2, h3, h4, h5, h6, h7, h8]

end DynamicDock

